import Mathlib

/-
Verification of the profile-image upload pipeline
(openedx/core/djangoapps/profile_images/views.py) and of the e-commerce
client (lms/djangoapps/commerce/api.py) of this repository.

The embedding is shallow: Python functions become Lean functions, the
storage backend becomes an explicit association list threaded through the
operations, and the PIL image library is modelled by the dimensions of the
images it produces.  Machine integers are Nat with explicit reduction
modulo 2 ^ 32 where the MD5 algorithm needs it.
-/

namespace ProfileImages

/-- A byte is a natural number below 256. -/
abbrev Byte := Nat

/-- An uploaded file as the view sees it: filename, size in bytes, raw
content bytes, the Content-Type header sent with the upload, and the pixel
dimensions of the image that PIL decodes from the content. -/
structure UploadedFile where
  name : String
  size : Nat
  content : List Byte
  content_type : String
  width : Nat
  height : Nat
deriving Repr, DecidableEq

def PROFILE_IMAGE_MAX_BYTES : Nat := 1024 * 1024

def PROFILE_IMAGE_MIN_BYTES : Nat := 100

def DEV_MSG_FILE_TOO_LARGE : String := "Maximum file size exceeded."

def DEV_MSG_FILE_TOO_SMALL : String := "Minimum file size not met."

def DEV_MSG_FILE_BAD_TYPE : String := "Unsupported file type."

def DEV_MSG_FILE_BAD_EXT : String := "File extension does not match data."

def DEV_MSG_FILE_BAD_MIMETYPE : String := "Content-Type header does not match data."

/-- One row of the fixed table of accepted image types. -/
structure ImageType where
  name : String
  extension : List String
  mimetypes : List String
  magic : List String
deriving Repr, DecidableEq

/-- The fixed table of accepted image types, in source order. -/
def image_types : List ImageType :=
  [ ⟨"jpeg", [".jpeg", ".jpg"], ["image/jpeg", "image/pjpeg"], ["ffd8"]⟩,
    ⟨"png", [".png"], ["image/png"], ["89504e470d0a1a0a"]⟩,
    ⟨"gif", [".gif"], ["image/gif"], ["474946383961", "474946383761"]⟩ ]

/-- Python str.lower on ASCII text: lowercase every character. -/
def str_lower (s : String) : String := String.mk (s.data.map Char.toLower)

/-- Python str.endswith: the second string is a suffix of the first. -/
def endswith (s suf : String) : Bool := List.isSuffixOf suf.data s.data

/-- Lowercase hexadecimal digit for a value below 16. -/
def hexDigit (n : Nat) : Char := if n < 10 then Char.ofNat (48 + n) else Char.ofNat (87 + n)

/-- Two lowercase hexadecimal digits for one byte. -/
def hexByte (b : Byte) : String := String.mk [hexDigit (b / 16 % 16), hexDigit (b % 16)]

/-- Python bytes.encode applied with the hex codec. -/
def hexEncode (bs : List Byte) : String := String.join (bs.map hexByte)

/-- The first element of the fixed table whose extension list matches the
lowercased filename; this is the filetype selection of
validate_profile_image. -/
def matched_type (filename : String) : Option ImageType :=
  (image_types.filter (fun ft => ft.extension.any (fun ext => endswith filename ext))).head?

/-- validate_profile_image: size check, extension check, mimetype check and
magic-bytes check, in source order; errors carry the message of the raised
InvalidProfileImage, success carries the cleaned extension. -/
def validate_profile_image (image_file : UploadedFile) (content_type : String) :
    Except String String :=
  if PROFILE_IMAGE_MAX_BYTES < image_file.size then
    .error DEV_MSG_FILE_TOO_LARGE
  else if image_file.size < PROFILE_IMAGE_MIN_BYTES then
    .error DEV_MSG_FILE_TOO_SMALL
  else
    let filename := str_lower image_file.name
    match matched_type filename with
    | none => .error DEV_MSG_FILE_BAD_TYPE
    | some filetype =>
      if content_type ∈ filetype.mimetypes then
        let headers := filetype.magic
        if hexEncode (image_file.content.take ((headers.headD "").length / 2)) ∈ headers then
          .ok filetype.name
        else
          .error DEV_MSG_FILE_BAD_EXT
      else
        .error DEV_MSG_FILE_BAD_MIMETYPE

/-- The acceptance predicate of the fixed table, stated from the claim
text: size within the allowed range, lowercased filename ending in one of
the extensions of a type, the content type among that type of mimetypes,
and the leading bytes hex-encoding to one of that type of magic strings. -/
def passes_fixed_table (f : UploadedFile) (ct : String) : Prop :=
  f.size ≤ 1048576 ∧ 100 ≤ f.size ∧
  (((endswith (str_lower f.name) ".jpeg" = true ∨ endswith (str_lower f.name) ".jpg" = true) ∧
      (ct = "image/jpeg" ∨ ct = "image/pjpeg") ∧
      hexEncode (f.content.take 2) = "ffd8") ∨
    (endswith (str_lower f.name) ".png" = true ∧ ct = "image/png" ∧
      hexEncode (f.content.take 8) = "89504e470d0a1a0a") ∨
    (endswith (str_lower f.name) ".gif" = true ∧ ct = "image/gif" ∧
      (hexEncode (f.content.take 6) = "474946383961" ∨
       hexEncode (f.content.take 6) = "474946383761")))

/-- A PIL image, modelled by its pixel dimensions. -/
structure Image where
  width : Nat
  height : Nat
deriving Repr, DecidableEq

/-- PIL Image.open applied to an uploaded file yields the decoded image. -/
def Image.openFile (f : UploadedFile) : Image := ⟨f.width, f.height⟩

/-- PIL Image.crop with box (l, u, r, b) yields an image of dimensions
(r - l) by (b - u). -/
def Image.crop (_i : Image) (l u r b : Nat) : Image := ⟨r - l, b - u⟩

/-- PIL Image.resize to the requested dimensions. -/
def Image.resize (_i : Image) (w h : Nat) : Image := ⟨w, h⟩

/-- get_scaled_image_file: resize to side by side and encode as JPEG; the
stored content is modelled by the resulting image. -/
def get_scaled_image_file (image_obj : Image) (side : Nat) : Image :=
  image_obj.resize side side

/-- The storage backend: an association list from file names to stored
image contents. -/
abbrev Storage := List (String × Image)

/-- Django storage.exists. -/
def storage_exists (st : Storage) (name : String) : Bool :=
  st.any (fun e => e.1 == name)

/-- Django storage.delete: removes the entries with the given name. -/
def storage_delete (st : Storage) (name : String) : Storage :=
  st.filter (fun e => !(e.1 == name))

/-- Django storage.save on a name that is free: stores under that name and
returns it as the path. -/
def storage_save (st : Storage) (name : String) (f : Image) : Storage × String :=
  ((name, f) :: st, name)

namespace MD5

/-- Reduction modulo 2 ^ 32. -/
def w32 (n : Nat) : Nat := n % 4294967296

/-- Left rotation of a 32-bit value by c bits, 0 < c < 32. -/
def rotl (x c : Nat) : Nat := (x * 2 ^ c) % 4294967296 + x / 2 ^ (32 - c)

/-- Bitwise complement on 32 bits. -/
def mnot (x : Nat) : Nat := Nat.xor 4294967295 x

/-- The 64 round constants of MD5. -/
def K : List Nat :=
  [0xd76aa478, 0xe8c7b756, 0x242070db, 0xc1bdceee,
   0xf57c0faf, 0x4787c62a, 0xa8304613, 0xfd469501,
   0x698098d8, 0x8b44f7af, 0xffff5bb1, 0x895cd7be,
   0x6b901122, 0xfd987193, 0xa679438e, 0x49b40821,
   0xf61e2562, 0xc040b340, 0x265e5a51, 0xe9b6c7aa,
   0xd62f105d, 0x02441453, 0xd8a1e681, 0xe7d3fbc8,
   0x21e1cde6, 0xc33707d6, 0xf4d50d87, 0x455a14ed,
   0xa9e3e905, 0xfcefa3f8, 0x676f02d9, 0x8d2a4c8a,
   0xfffa3942, 0x8771f681, 0x6d9d6122, 0xfde5380c,
   0xa4beea44, 0x4bdecfa9, 0xf6bb4b60, 0xbebfbc70,
   0x289b7ec6, 0xeaa127fa, 0xd4ef3085, 0x04881d05,
   0xd9d4d039, 0xe6db99e5, 0x1fa27cf8, 0xc4ac5665,
   0xf4292244, 0x432aff97, 0xab9423a7, 0xfc93a039,
   0x655b59c3, 0x8f0ccc92, 0xffeff47d, 0x85845dd1,
   0x6fa87e4f, 0xfe2ce6e0, 0xa3014314, 0x4e0811a1,
   0xf7537e82, 0xbd3af235, 0x2ad7d2bb, 0xeb86d391]

/-- The 64 per-round shift amounts of MD5. -/
def S : List Nat :=
  [7, 12, 17, 22, 7, 12, 17, 22, 7, 12, 17, 22, 7, 12, 17, 22,
   5, 9, 14, 20, 5, 9, 14, 20, 5, 9, 14, 20, 5, 9, 14, 20,
   4, 11, 16, 23, 4, 11, 16, 23, 4, 11, 16, 23, 4, 11, 16, 23,
   6, 10, 15, 21, 6, 10, 15, 21, 6, 10, 15, 21, 6, 10, 15, 21]

/-- The four 32-bit working registers. -/
structure Regs where
  a : Nat
  b : Nat
  c : Nat
  d : Nat
deriving Repr, DecidableEq

/-- One round of the MD5 compression function on message words M. -/
def stepRound (M : List Nat) (r : Regs) (i : Nat) : Regs :=
  let f :=
    if i < 16 then Nat.lor (Nat.land r.b r.c) (Nat.land (mnot r.b) r.d)
    else if i < 32 then Nat.lor (Nat.land r.d r.b) (Nat.land (mnot r.d) r.c)
    else if i < 48 then Nat.xor r.b (Nat.xor r.c r.d)
    else Nat.xor r.c (Nat.lor r.b (mnot r.d))
  let g :=
    if i < 16 then i
    else if i < 32 then (5 * i + 1) % 16
    else if i < 48 then (3 * i + 5) % 16
    else (7 * i) % 16
  let fv := w32 (f + r.a + K.getD i 0 + M.getD g 0)
  ⟨r.d, w32 (r.b + rotl fv (S.getD i 0)), r.b, r.c⟩

/-- Process one 64-byte chunk: 64 rounds, then add into the registers. -/
def processChunk (r : Regs) (chunk : List Nat) : Regs :=
  let M := (List.range 16).map (fun i =>
    chunk.getD (4 * i) 0 + chunk.getD (4 * i + 1) 0 * 256 +
    chunk.getD (4 * i + 2) 0 * 65536 + chunk.getD (4 * i + 3) 0 * 16777216)
  let r2 := (List.range 64).foldl (stepRound M) r
  ⟨w32 (r.a + r2.a), w32 (r.b + r2.b), w32 (r.c + r2.c), w32 (r.d + r2.d)⟩

/-- MD5 padding: a 0x80 byte, zeros to 56 mod 64, then the bit length as
eight little-endian bytes. -/
def pad (msg : List Nat) : List Nat :=
  let bitLen := 8 * msg.length
  let zeros := (120 - (msg.length + 1) % 64) % 64
  msg ++ 128 :: (List.replicate zeros 0 ++ (List.range 8).map (fun i => bitLen / 2 ^ (8 * i) % 256))

/-- A 32-bit word as four little-endian bytes. -/
def wordLE (n : Nat) : List Nat :=
  [n % 256, n / 256 % 256, n / 65536 % 256, n / 16777216 % 256]

/-- The 16-byte MD5 digest of a byte sequence. -/
def digest (msg : List Nat) : List Nat :=
  let padded := pad msg
  let chunks := (List.range (padded.length / 64)).map (fun i => (padded.drop (64 * i)).take 64)
  let r := chunks.foldl processChunk ⟨0x67452301, 0xefcdab89, 0x98badcfe, 0x10325476⟩
  wordLE r.a ++ wordLE r.b ++ wordLE r.c ++ wordLE r.d

end MD5

/-- The UTF-8 bytes of one character. -/
def charUTF8 (c : Char) : List Nat :=
  let n := c.toNat
  if n < 128 then [n]
  else if n < 2048 then [192 + n / 64, 128 + n % 64]
  else if n < 65536 then [224 + n / 4096, 128 + n / 64 % 64, 128 + n % 64]
  else [240 + n / 262144, 128 + n / 4096 % 64, 128 + n / 64 % 64, 128 + n % 64]

/-- The UTF-8 bytes of a string. -/
def strBytes (s : String) : List Nat := s.data.foldr (fun c acc => charUTF8 c ++ acc) []

/-- hashlib.md5 followed by hexdigest. -/
def md5hex (s : String) : String := hexEncode (MD5.digest (strBytes s))

/-- name_profile_image: the deterministic storage name for a user and
thumbnail side. -/
def name_profile_image (username : String) (side : Nat) : String :=
  md5hex username ++ ("_profile_" ++ (toString side ++ ".jpeg"))

/-- store_profile_image: delete any existing file of the destination name,
then save; returns the path and the new storage state. -/
def store_profile_image (image_file : Image) (side : Nat) (username : String)
    (storage : Storage) : String × Storage :=
  let dest_name := name_profile_image username side
  let storage1 := if storage_exists storage dest_name then storage_delete storage dest_name else storage
  let saved := storage_save storage1 dest_name image_file
  (saved.2, saved.1)

/-- The center-crop step of generate_profile_images: crop a non-square
image to a centered square whose side is the smaller dimension. -/
def center_squared (image_obj : Image) : Image :=
  if image_obj.width ≠ image_obj.height then
    let side := if image_obj.width < image_obj.height then image_obj.width else image_obj.height
    image_obj.crop ((image_obj.width - side) / 2) ((image_obj.height - side) / 2)
      ((image_obj.width + side) / 2) ((image_obj.height + side) / 2)
  else image_obj

/-- The four fixed thumbnail sides. -/
def profile_image_sides : List Nat := [30, 50, 120, 500]

/-- generate_profile_images: open the uploaded file, center-crop if needed,
then scale and store a thumbnail at each fixed side. -/
def generate_profile_images (image_file : UploadedFile) (username : String)
    (storage : Storage) : Storage :=
  let image_obj := center_squared (Image.openFile image_file)
  profile_image_sides.foldl
    (fun st side => (store_profile_image (get_scaled_image_file image_obj side) side username st).2)
    storage

/-- The authenticated user on a request. -/
structure RequestUser where
  username : String
  is_staff : Bool
deriving Repr, DecidableEq

/-- The body of a response from the upload view. -/
inductive ResponseBody where
  | empty
  | validationError (developer_message : String) (user_message : Option String)
  | success
deriving Repr, DecidableEq

/-- An HTTP response: status code and body. -/
structure HttpResponse where
  status : Nat
  body : ResponseBody
deriving Repr, DecidableEq

/-- ProfileImageUploadView.post: permission check, file presence check,
validation, then thumbnail generation; returns the response and the
resulting storage state. -/
def profile_image_upload_post (user : RequestUser) (username : String)
    (files : Option UploadedFile) (storage : Storage) : HttpResponse × Storage :=
  if user.username ≠ username ∧ user.is_staff = false then
    (⟨403, .empty⟩, storage)
  else
    match files with
    | none => (⟨400, .empty⟩, storage)
    | some uploaded_file =>
      match validate_profile_image uploaded_file uploaded_file.content_type with
      | .error e => (⟨400, .validationError e none⟩, storage)
      | .ok _ => (⟨200, .success⟩, generate_profile_images uploaded_file username storage)

end ProfileImages

namespace Commerce

/-- A decoded JSON value as the simplejson decoder produces it: an object,
an array, a string, a number, a boolean or null. -/
inductive JsonValue where
  | obj (fields : List (String × JsonValue))
  | arr (items : List JsonValue)
  | str (s : String)
  | num (n : Int)
  | jbool (b : Bool)
  | null

/-- A response from the e-commerce API: the HTTP status code and the
decoded JSON body, or none when the body is not valid JSON. -/
structure ApiResponse where
  status_code : Nat
  body_json : Option JsonValue

/-- What EommerceAPI.create_order does after the HTTP call: return a
value, re-raise the JSON decoding error, or raise the AttributeError
coming from the user_message lookup on a body that is not an object. -/
inductive CreateOrderResult where
  | returns (data : Option JsonValue)
  | raisesJSONDecodeError
  | raisesAttributeError

def LOG_INVALID_JSON : String := "E-Commerce API response is not valid JSON."

def LOG_INVALID_RESPONSE : String :=
  "Response from E-Commerce API was invalid: (%(status)d) - %(msg)s"

/-- EommerceAPI.create_order on a received response: decode the body,
re-raising the JSONDecodeError after logging when it is invalid; return
the data on HTTP 200; otherwise evaluate the user_message lookup on the
body, which raises AttributeError when the decoded body is not an object,
and else log and fall through to None.  The second component collects the
error-log format strings. -/
def create_order (response : ApiResponse) : CreateOrderResult × List String :=
  match response.body_json with
  | none => (.raisesJSONDecodeError, [LOG_INVALID_JSON])
  | some data =>
    if response.status_code = 200 then (.returns (some data), [])
    else
      match data with
      | .obj _ => (.returns none, [LOG_INVALID_RESPONSE])
      | _ => (.raisesAttributeError, [])

end Commerce

namespace ProfileImages

/- Helper lemmas about the validation function. -/

theorem endswith_excl {s a b : String} (ha : endswith s a = true) (hb : endswith s b = true)
    (hab : ¬ a.data <:+ b.data) (hba : ¬ b.data <:+ a.data) : False := by
  unfold endswith at ha hb
  rw [List.isSuffixOf_iff_suffix] at ha hb
  rcases List.suffix_or_suffix_of_suffix ha hb with h | h
  · exact hab h
  · exact hba h

theorem validate_too_large (f : UploadedFile) (ct : String)
    (h : PROFILE_IMAGE_MAX_BYTES < f.size) :
    validate_profile_image f ct = .error DEV_MSG_FILE_TOO_LARGE := by
  unfold validate_profile_image
  rw [if_pos h]

theorem validate_too_small (f : UploadedFile) (ct : String)
    (hmax : ¬ PROFILE_IMAGE_MAX_BYTES < f.size) (h : f.size < PROFILE_IMAGE_MIN_BYTES) :
    validate_profile_image f ct = .error DEV_MSG_FILE_TOO_SMALL := by
  unfold validate_profile_image
  rw [if_neg hmax, if_pos h]

theorem validate_eq_branch (f : UploadedFile) (ct : String)
    (hmax : ¬ PROFILE_IMAGE_MAX_BYTES < f.size) (hmin : ¬ f.size < PROFILE_IMAGE_MIN_BYTES) :
    validate_profile_image f ct =
      match matched_type (str_lower f.name) with
      | none => .error DEV_MSG_FILE_BAD_TYPE
      | some filetype =>
        if ct ∈ filetype.mimetypes then
          if hexEncode (f.content.take ((filetype.magic.headD "").length / 2)) ∈ filetype.magic then
            .ok filetype.name
          else .error DEV_MSG_FILE_BAD_EXT
        else .error DEV_MSG_FILE_BAD_MIMETYPE := by
  unfold validate_profile_image
  rw [if_neg hmax, if_neg hmin]

theorem validate_eq_none (f : UploadedFile) (ct : String)
    (hmax : ¬ PROFILE_IMAGE_MAX_BYTES < f.size) (hmin : ¬ f.size < PROFILE_IMAGE_MIN_BYTES)
    (hm : matched_type (str_lower f.name) = none) :
    validate_profile_image f ct = .error DEV_MSG_FILE_BAD_TYPE := by
  rw [validate_eq_branch f ct hmax hmin, hm]

theorem validate_eq_some (f : UploadedFile) (ct : String)
    (hmax : ¬ PROFILE_IMAGE_MAX_BYTES < f.size) (hmin : ¬ f.size < PROFILE_IMAGE_MIN_BYTES)
    {t : ImageType} (hm : matched_type (str_lower f.name) = some t) :
    validate_profile_image f ct =
      (if ct ∈ t.mimetypes then
        if hexEncode (f.content.take ((t.magic.headD "").length / 2)) ∈ t.magic then
          .ok t.name
        else .error DEV_MSG_FILE_BAD_EXT
      else .error DEV_MSG_FILE_BAD_MIMETYPE) := by
  rw [validate_eq_branch f ct hmax hmin, hm]

theorem validate_shape (f : UploadedFile) (ct : String)
    (hmax : ¬ PROFILE_IMAGE_MAX_BYTES < f.size) (hmin : ¬ f.size < PROFILE_IMAGE_MIN_BYTES) :
    (matched_type (str_lower f.name) = none ∧
      validate_profile_image f ct = .error DEV_MSG_FILE_BAD_TYPE) ∨
    (∃ t, matched_type (str_lower f.name) = some t ∧
      ((ct ∉ t.mimetypes ∧ validate_profile_image f ct = .error DEV_MSG_FILE_BAD_MIMETYPE) ∨
       (ct ∈ t.mimetypes ∧
         hexEncode (f.content.take ((t.magic.headD "").length / 2)) ∉ t.magic ∧
         validate_profile_image f ct = .error DEV_MSG_FILE_BAD_EXT) ∨
       (ct ∈ t.mimetypes ∧
         hexEncode (f.content.take ((t.magic.headD "").length / 2)) ∈ t.magic ∧
         validate_profile_image f ct = .ok t.name))) := by
  cases hm : matched_type (str_lower f.name) with
  | none => exact Or.inl ⟨rfl, validate_eq_none f ct hmax hmin hm⟩
  | some t =>
    refine Or.inr ⟨t, rfl, ?_⟩
    have hb := validate_eq_some f ct hmax hmin hm
    by_cases hct : ct ∈ t.mimetypes
    · by_cases hmag : hexEncode (f.content.take ((t.magic.headD "").length / 2)) ∈ t.magic
      · exact Or.inr (Or.inr ⟨hct, hmag, by rw [hb, if_pos hct, if_pos hmag]⟩)
      · exact Or.inr (Or.inl ⟨hct, hmag, by rw [hb, if_pos hct, if_neg hmag]⟩)
    · exact Or.inl ⟨hct, by rw [hb, if_neg hct]⟩

theorem validate_size_ok_not_size_error (f : UploadedFile) (ct : String)
    (hmax : ¬ PROFILE_IMAGE_MAX_BYTES < f.size) (hmin : ¬ f.size < PROFILE_IMAGE_MIN_BYTES) :
    validate_profile_image f ct ≠ .error DEV_MSG_FILE_TOO_LARGE ∧
    validate_profile_image f ct ≠ .error DEV_MSG_FILE_TOO_SMALL := by
  rcases validate_shape f ct hmax hmin with ⟨_, hv⟩ | ⟨t, _, ⟨_, hv⟩ | ⟨_, _, hv⟩ | ⟨_, _, hv⟩⟩ <;>
    rw [hv] <;>
    simp [DEV_MSG_FILE_TOO_LARGE, DEV_MSG_FILE_TOO_SMALL, DEV_MSG_FILE_BAD_TYPE,
      DEV_MSG_FILE_BAD_MIMETYPE, DEV_MSG_FILE_BAD_EXT]

/-- C5: the size check rejects with the maximum-size message exactly when
the size exceeds 1048576 bytes, rejects with the minimum-size message
exactly when the size is below 100 bytes, and a file of exactly 100 or
exactly 1048576 bytes passes the size check. -/
theorem c5_size_bounds (f : UploadedFile) (ct : String) :
    (validate_profile_image f ct = .error DEV_MSG_FILE_TOO_LARGE ↔ 1048576 < f.size) ∧
    (validate_profile_image f ct = .error DEV_MSG_FILE_TOO_SMALL ↔ f.size < 100) ∧
    ((f.size = 100 ∨ f.size = 1048576) →
      validate_profile_image f ct ≠ .error DEV_MSG_FILE_TOO_LARGE ∧
      validate_profile_image f ct ≠ .error DEV_MSG_FILE_TOO_SMALL) := by
  have hMAX : PROFILE_IMAGE_MAX_BYTES = 1048576 := rfl
  have hMIN : PROFILE_IMAGE_MIN_BYTES = 100 := rfl
  by_cases hmax : PROFILE_IMAGE_MAX_BYTES < f.size
  · have hv := validate_too_large f ct hmax
    refine ⟨⟨fun _ => hMAX ▸ hmax, fun _ => hv⟩, ⟨fun h => ?_, fun h => ?_⟩, fun h => ?_⟩
    · rw [hv] at h
      simp [DEV_MSG_FILE_TOO_LARGE, DEV_MSG_FILE_TOO_SMALL] at h
    · rw [hMAX] at hmax; omega
    · rw [hMAX] at hmax; omega
  · by_cases hmin : f.size < PROFILE_IMAGE_MIN_BYTES
    · have hv := validate_too_small f ct hmax hmin
      refine ⟨⟨fun h => ?_, fun h => ?_⟩, ⟨fun _ => hMIN ▸ hmin, fun _ => hv⟩, fun h => ?_⟩
      · rw [hv] at h
        simp [DEV_MSG_FILE_TOO_LARGE, DEV_MSG_FILE_TOO_SMALL] at h
      · rw [hMAX] at hmax; omega
      · rw [hMIN] at hmin; rw [hMAX] at hmax; omega
    · have hne := validate_size_ok_not_size_error f ct hmax hmin
      refine ⟨⟨fun h => absurd h hne.1, fun h => ?_⟩, ⟨fun h => absurd h hne.2, fun h => ?_⟩,
        fun _ => hne⟩
      · rw [hMAX] at hmax; omega
      · rw [hMIN] at hmin; omega

/-- C5 witness: a 100-byte file is not rejected by the size check. -/
theorem c5_size_bounds_witness :
    ((⟨"a.txt", 100, [], "text/plain", 4, 4⟩ : UploadedFile).size = 100 ∨
      (⟨"a.txt", 100, [], "text/plain", 4, 4⟩ : UploadedFile).size = 1048576) ∧
    (validate_profile_image ⟨"a.txt", 100, [], "text/plain", 4, 4⟩ "text/plain" ≠
        .error DEV_MSG_FILE_TOO_LARGE ∧
      validate_profile_image ⟨"a.txt", 100, [], "text/plain", 4, 4⟩ "text/plain" ≠
        .error DEV_MSG_FILE_TOO_SMALL) :=
  ⟨Or.inl rfl, (c5_size_bounds ⟨"a.txt", 100, [], "text/plain", 4, 4⟩ "text/plain").2.2 (Or.inl rfl)⟩

/-- C7: with the size checks passed, each later check that fails raises
InvalidProfileImage with its own distinct message: the unsupported-type
message when no table entry matches the extension, the mimetype message
when the content type is not among the matched entry of mimetypes, and the
extension-mismatch message when the leading bytes match none of the magic
strings; the three messages are pairwise distinct. -/
theorem c7_distinct_failure_messages (f : UploadedFile) (ct : String)
    (hmax : f.size ≤ PROFILE_IMAGE_MAX_BYTES) (hmin : PROFILE_IMAGE_MIN_BYTES ≤ f.size) :
    (matched_type (str_lower f.name) = none →
      validate_profile_image f ct = .error DEV_MSG_FILE_BAD_TYPE) ∧
    (∀ t, matched_type (str_lower f.name) = some t → ct ∉ t.mimetypes →
      validate_profile_image f ct = .error DEV_MSG_FILE_BAD_MIMETYPE) ∧
    (∀ t, matched_type (str_lower f.name) = some t → ct ∈ t.mimetypes →
      hexEncode (f.content.take ((t.magic.headD "").length / 2)) ∉ t.magic →
      validate_profile_image f ct = .error DEV_MSG_FILE_BAD_EXT) ∧
    (DEV_MSG_FILE_BAD_TYPE ≠ DEV_MSG_FILE_BAD_MIMETYPE ∧
     DEV_MSG_FILE_BAD_TYPE ≠ DEV_MSG_FILE_BAD_EXT ∧
     DEV_MSG_FILE_BAD_MIMETYPE ≠ DEV_MSG_FILE_BAD_EXT) := by
  have hmax' : ¬ PROFILE_IMAGE_MAX_BYTES < f.size := Nat.not_lt.mpr hmax
  have hmin' : ¬ f.size < PROFILE_IMAGE_MIN_BYTES := Nat.not_lt.mpr hmin
  refine ⟨fun hm => ?_, fun t hm hct => ?_, fun t hm hct hmag => ?_, by decide, by decide, by decide⟩
  · exact validate_eq_none f ct hmax' hmin' hm
  · rw [validate_eq_some f ct hmax' hmin' hm, if_neg hct]
  · rw [validate_eq_some f ct hmax' hmin' hm, if_pos hct, if_neg hmag]

/-- C7 witness: a well-sized file with an unsupported extension is rejected
with the unsupported-type message. -/
theorem c7_distinct_failure_messages_witness :
    (⟨"a.txt", 500, [], "text/plain", 4, 4⟩ : UploadedFile).size ≤ PROFILE_IMAGE_MAX_BYTES ∧
    matched_type (str_lower (⟨"a.txt", 500, [], "text/plain", 4, 4⟩ : UploadedFile).name) = none ∧
    validate_profile_image ⟨"a.txt", 500, [], "text/plain", 4, 4⟩ "text/plain" =
      .error DEV_MSG_FILE_BAD_TYPE :=
  ⟨by decide, by decide,
    (c7_distinct_failure_messages ⟨"a.txt", 500, [], "text/plain", 4, 4⟩ "text/plain"
      (by decide) (by decide)).1 (by decide)⟩


/-- C3: generate_profile_images center-crops a non-square image to a
square whose side is the smaller dimension, using the crop box
((width - side) / 2, (height - side) / 2, (width + side) / 2,
(height + side) / 2) under integer division; the box spans exactly side
pixels in each dimension and is centered up to one pixel of integer
rounding; an already-square image is left unchanged before scaling. -/
theorem c3_center_crop (img : Image) :
    (img.width = img.height → center_squared img = img) ∧
    (img.width ≠ img.height →
      (center_squared img =
        img.crop ((img.width - min img.width img.height) / 2)
          ((img.height - min img.width img.height) / 2)
          ((img.width + min img.width img.height) / 2)
          ((img.height + min img.width img.height) / 2) ∧
       (img.width + min img.width img.height) / 2 -
          (img.width - min img.width img.height) / 2 = min img.width img.height ∧
       (img.height + min img.width img.height) / 2 -
          (img.height - min img.width img.height) / 2 = min img.width img.height ∧
       (center_squared img).width = min img.width img.height ∧
       (center_squared img).height = min img.width img.height ∧
       ((img.width - min img.width img.height) / 2 ≤
          img.width - (img.width + min img.width img.height) / 2 ∧
        img.width - (img.width + min img.width img.height) / 2 ≤
          (img.width - min img.width img.height) / 2 + 1) ∧
       ((img.height - min img.width img.height) / 2 ≤
          img.height - (img.height + min img.width img.height) / 2 ∧
        img.height - (img.height + min img.width img.height) / 2 ≤
          (img.height - min img.width img.height) / 2 + 1))) := by
  obtain ⟨w, h⟩ := img
  constructor
  · intro he
    simp only [center_squared]
    rw [if_neg]
    simp only [ne_eq, Decidable.not_not]
    exact he
  · intro hne
    simp only [center_squared, Image.crop]
    rw [if_pos hne]
    rcases Nat.lt_or_ge w h with hlt | hge
    · have hmin : min w h = w := Nat.min_eq_left (Nat.le_of_lt hlt)
      rw [if_pos hlt, hmin]
      refine ⟨rfl, ?_, ?_, ?_, ?_, ⟨?_, ?_⟩, ?_, ?_⟩ <;> (try dsimp only) <;> omega
    · have hlt : ¬ w < h := Nat.not_lt.mpr hge
      have hmin : min w h = h := Nat.min_eq_right hge
      rw [if_neg hlt, hmin]
      refine ⟨rfl, ?_, ?_, ?_, ?_, ⟨?_, ?_⟩, ?_, ?_⟩ <;> (try dsimp only) <;> omega

/-- C3 witness: a 4 by 7 image is cropped to the centered 4 by 4 box
(0, 1, 4, 5). -/
theorem c3_center_crop_witness :
    (Image.mk 4 7).width ≠ (Image.mk 4 7).height ∧
    center_squared (Image.mk 4 7) =
      (Image.mk 4 7).crop (((Image.mk 4 7).width - min (Image.mk 4 7).width (Image.mk 4 7).height) / 2)
        (((Image.mk 4 7).height - min (Image.mk 4 7).width (Image.mk 4 7).height) / 2)
        (((Image.mk 4 7).width + min (Image.mk 4 7).width (Image.mk 4 7).height) / 2)
        (((Image.mk 4 7).height + min (Image.mk 4 7).width (Image.mk 4 7).height) / 2) :=
  ⟨by decide, ((c3_center_crop (Image.mk 4 7)).2 (by decide)).1⟩

/-- C4 counterexample: a file that fails the file-type sniffing is
nevertheless rejected by the size check with the size message, so the size
check runs before the sniffing, contradicting the claimed order. -/
theorem c4_counterexample :
    matched_type (str_lower (⟨"evil.txt", 1048577, [], "text/plain", 10, 10⟩ :
        UploadedFile).name) = none ∧
    validate_profile_image ⟨"evil.txt", 1048577, [], "text/plain", 10, 10⟩ "text/plain" =
      .error DEV_MSG_FILE_TOO_LARGE ∧
    DEV_MSG_FILE_TOO_LARGE ≠ DEV_MSG_FILE_BAD_TYPE := by
  refine ⟨by decide, ?_, by decide⟩
  exact validate_too_large _ _ (by decide)

/-- C4 amended: the pipeline performs the size checks first, then the
file-type sniffing (extension, mimetype and magic bytes), and only after
successful validation the resizing; resizing never happens on a
validation error. -/
theorem c4_amended_pipeline_order (f : UploadedFile) (ct : String) (user : RequestUser)
    (username : String) (st : Storage) :
    (PROFILE_IMAGE_MAX_BYTES < f.size →
      validate_profile_image f ct = .error DEV_MSG_FILE_TOO_LARGE) ∧
    (f.size ≤ PROFILE_IMAGE_MAX_BYTES → f.size < PROFILE_IMAGE_MIN_BYTES →
      validate_profile_image f ct = .error DEV_MSG_FILE_TOO_SMALL) ∧
    (f.size ≤ PROFILE_IMAGE_MAX_BYTES → PROFILE_IMAGE_MIN_BYTES ≤ f.size →
      matched_type (str_lower f.name) = none →
      validate_profile_image f ct = .error DEV_MSG_FILE_BAD_TYPE) ∧
    (∀ e, validate_profile_image f f.content_type = .error e →
      (profile_image_upload_post user username (some f) st).2 = st) ∧
    (∀ t, validate_profile_image f f.content_type = .ok t → user.username = username →
      profile_image_upload_post user username (some f) st =
        (⟨200, .success⟩, generate_profile_images f username st)) := by
  refine ⟨fun h => validate_too_large f ct h,
    fun hmax hmin => validate_too_small f ct (Nat.not_lt.mpr hmax) hmin,
    fun hmax hmin hm => validate_eq_none f ct (Nat.not_lt.mpr hmax) (Nat.not_lt.mpr hmin) hm,
    fun e hv => ?_, fun t hv hu => ?_⟩
  · unfold profile_image_upload_post
    by_cases hp : user.username ≠ username ∧ user.is_staff = false
    · rw [if_pos hp]
    · rw [if_neg hp]
      dsimp only
      rw [hv]
  · unfold profile_image_upload_post
    rw [if_neg (by simp [hu])]
    dsimp only
    rw [hv]

/-- C4 amended witness: an oversized file gets the size message; a bad
extension with good size gets the type message; a valid upload by the
owner stores the generated images. -/
theorem c4_amended_pipeline_order_witness :
    validate_profile_image ⟨"evil.txt", 1048577, [], "text/plain", 10, 10⟩ "text/plain" =
      .error DEV_MSG_FILE_TOO_LARGE ∧
    (profile_image_upload_post ⟨"u", false⟩ "u"
        (some ⟨"evil.txt", 1048577, [], "text/plain", 10, 10⟩) []).2 = [] :=
  ⟨(c4_amended_pipeline_order ⟨"evil.txt", 1048577, [], "text/plain", 10, 10⟩ "text/plain"
      ⟨"u", false⟩ "u" []).1 (by decide),
   (c4_amended_pipeline_order ⟨"evil.txt", 1048577, [], "text/plain", 10, 10⟩ "text/plain"
      ⟨"u", false⟩ "u" []).2.2.2.1 DEV_MSG_FILE_TOO_LARGE
      (validate_too_large _ _ (by decide))⟩

/-- C8: when validation fails, the post handler returns before calling
generate_profile_images or store_profile_image, so the storage is left
unchanged. -/
theorem c8_storage_unchanged_on_invalid (user : RequestUser) (username : String)
    (f : UploadedFile) (st : Storage) (e : String)
    (hv : validate_profile_image f f.content_type = .error e) :
    (profile_image_upload_post user username (some f) st).2 = st := by
  unfold profile_image_upload_post
  by_cases hp : user.username ≠ username ∧ user.is_staff = false
  · rw [if_pos hp]
  · rw [if_neg hp]
    dsimp only
    rw [hv]

/-- C8 witness: an invalid upload leaves a one-entry storage as it was. -/
theorem c8_storage_unchanged_on_invalid_witness :
    validate_profile_image ⟨"a.txt", 500, [], "text/plain", 4, 4⟩
        (⟨"a.txt", 500, [], "text/plain", 4, 4⟩ : UploadedFile).content_type =
      .error DEV_MSG_FILE_BAD_TYPE ∧
    (profile_image_upload_post ⟨"u", false⟩ "u" (some ⟨"a.txt", 500, [], "text/plain", 4, 4⟩)
        [("f", ⟨9, 9⟩)]).2 = [("f", ⟨9, 9⟩)] := by
  have hv : validate_profile_image ⟨"a.txt", 500, [], "text/plain", 4, 4⟩
      (⟨"a.txt", 500, [], "text/plain", 4, 4⟩ : UploadedFile).content_type =
        .error DEV_MSG_FILE_BAD_TYPE :=
    validate_eq_none _ _ (by decide) (by decide) (by decide)
  exact ⟨hv, c8_storage_unchanged_on_invalid ⟨"u", false⟩ "u" _ [("f", ⟨9, 9⟩)] _ hv⟩

end ProfileImages

namespace Commerce

/-- C10 counterexample: a 500 response whose body is the valid JSON array
value is not answered by logging and returning None; create_order raises
AttributeError from the user_message lookup on the non-object body. -/
theorem c10_counterexample :
    (⟨500, some (.arr [])⟩ : ApiResponse).body_json = some (.arr []) ∧
    (⟨500, some (.arr [])⟩ : ApiResponse).status_code ≠ 200 ∧
    create_order ⟨500, some (.arr [])⟩ = (.raisesAttributeError, []) ∧
    ((.raisesAttributeError, ([] : List String)) :
        CreateOrderResult × List String) ≠
      (.returns none, [LOG_INVALID_RESPONSE]) :=
  ⟨rfl, by decide, rfl,
    fun h => CreateOrderResult.noConfusion (congrArg Prod.fst h)⟩

/-- C10 (amended): create_order returns the decoded body exactly on HTTP
200; on any other status whose body is a valid JSON object it logs an
error and returns None without raising; on any other status whose body is
valid JSON but not an object it raises AttributeError from the
user_message lookup; on a body that is not valid JSON it logs and
re-raises the JSON decoding error. -/
theorem c10_create_order_status (resp : ApiResponse) :
    (resp.body_json = none →
      create_order resp = (.raisesJSONDecodeError, [LOG_INVALID_JSON])) ∧
    (∀ d, resp.body_json = some d →
      (resp.status_code = 200 → create_order resp = (.returns (some d), [])) ∧
      (resp.status_code ≠ 200 →
        (∀ fields, d = .obj fields →
          create_order resp = (.returns none, [LOG_INVALID_RESPONSE])) ∧
        ((∀ fields, d ≠ .obj fields) →
          create_order resp = (.raisesAttributeError, [])))) := by
  refine ⟨fun hb => ?_, fun d hb =>
    ⟨fun hs => ?_, fun hs => ⟨fun fields hd => ?_, fun hnd => ?_⟩⟩⟩
  · unfold create_order
    rw [hb]
  · unfold create_order
    rw [hb]
    simp [hs]
  · subst hd
    unfold create_order
    rw [hb]
    simp [hs]
  · unfold create_order
    rw [hb]
    dsimp only
    rw [if_neg hs]
    cases d with
    | obj fields => exact absurd rfl (hnd fields)
    | arr items => rfl
    | str s => rfl
    | num n => rfl
    | jbool b => rfl
    | null => rfl

/-- C10 witness: a 200 response with a JSON object body is returned as
data; a 500 response with a JSON object body yields None with an error
log; a 500 response with a JSON array body raises AttributeError. -/
theorem c10_create_order_status_witness :
    create_order ⟨200, some (.obj [("order_number", .str "A1")])⟩ =
      (.returns (some (.obj [("order_number", .str "A1")])), []) ∧
    create_order ⟨500, some (.obj [("user_message", .str "oops")])⟩ =
      (.returns none, [LOG_INVALID_RESPONSE]) ∧
    create_order ⟨500, some (.arr [])⟩ = (.raisesAttributeError, []) :=
  ⟨((c10_create_order_status ⟨200, some (.obj [("order_number", .str "A1")])⟩).2
      (.obj [("order_number", .str "A1")]) rfl).1 rfl,
   (((c10_create_order_status ⟨500, some (.obj [("user_message", .str "oops")])⟩).2
      (.obj [("user_message", .str "oops")]) rfl).2 (by decide)).1
      [("user_message", .str "oops")] rfl,
   (((c10_create_order_status ⟨500, some (.arr [])⟩).2 (.arr []) rfl).2 (by decide)).2
      (fun fields h => JsonValue.noConfusion h)⟩

end Commerce

namespace ProfileImages

theorem perm_contra {user : RequestUser} {username : String}
    (hp : user.username ≠ username ∧ user.is_staff = false)
    (hor : user.username = username ∨ user.is_staff = true) : False := by
  rcases hor with h | h
  · exact hp.1 h
  · rw [hp.2] at h
    cases h

/-- C6: the post handler answers 403 exactly when the requester is neither
the target user nor staff; otherwise 400 exactly when no file was sent or
validation fails, in the latter case with a body carrying the exception
message as developer_message and a null user_message; otherwise it answers
with the success body. -/
theorem c6_post_status_codes (user : RequestUser) (username : String)
    (files : Option UploadedFile) (st : Storage) :
    ((profile_image_upload_post user username files st).1.status = 403 ↔
      (user.username ≠ username ∧ user.is_staff = false)) ∧
    (user.username = username ∨ user.is_staff = true →
      ((profile_image_upload_post user username files st).1.status = 400 ↔
        (files = none ∨ ∃ f e, files = some f ∧
          validate_profile_image f f.content_type = .error e)) ∧
      (∀ f e, files = some f → validate_profile_image f f.content_type = .error e →
        (profile_image_upload_post user username files st).1 =
          ⟨400, .validationError e none⟩) ∧
      (∀ f t, files = some f → validate_profile_image f f.content_type = .ok t →
        (profile_image_upload_post user username files st).1 = ⟨200, .success⟩)) := by
  cases files with
  | none =>
    by_cases hp : user.username ≠ username ∧ user.is_staff = false
    · have hpost : profile_image_upload_post user username none st = (⟨403, .empty⟩, st) := by
        unfold profile_image_upload_post
        rw [if_pos hp]
      rw [hpost]
      exact ⟨⟨fun _ => hp, fun _ => rfl⟩, fun hor => absurd hor (fun h => perm_contra hp h)⟩
    · have hpost : profile_image_upload_post user username none st = (⟨400, .empty⟩, st) := by
        unfold profile_image_upload_post
        rw [if_neg hp]
      rw [hpost]
      refine ⟨⟨fun h => by simp at h, fun h => absurd h hp⟩, fun hor => ?_⟩
      refine ⟨⟨fun _ => Or.inl rfl, fun _ => rfl⟩, ?_, ?_⟩
      · intro f e hf
        cases hf
      · intro f t hf
        cases hf
  | some f =>
    cases hv : validate_profile_image f f.content_type with
    | error e =>
      by_cases hp : user.username ≠ username ∧ user.is_staff = false
      · have hpost : profile_image_upload_post user username (some f) st = (⟨403, .empty⟩, st) := by
          unfold profile_image_upload_post
          rw [if_pos hp]
        rw [hpost]
        exact ⟨⟨fun _ => hp, fun _ => rfl⟩, fun hor => absurd hor (fun h => perm_contra hp h)⟩
      · have hpost : profile_image_upload_post user username (some f) st =
            (⟨400, .validationError e none⟩, st) := by
          unfold profile_image_upload_post
          rw [if_neg hp]
          dsimp only
          rw [hv]
        rw [hpost]
        refine ⟨⟨fun h => by simp at h, fun h => absurd h hp⟩, fun hor => ?_⟩
        refine ⟨⟨fun _ => Or.inr ⟨f, e, rfl, hv⟩, fun _ => rfl⟩, ?_, ?_⟩
        · intro f' e' hf hv'
          injection hf with hf
          subst hf
          rw [hv] at hv'
          injection hv' with he
          subst he
          rfl
        · intro f' t hf hv'
          injection hf with hf
          subst hf
          rw [hv] at hv'
          cases hv'
    | ok t =>
      by_cases hp : user.username ≠ username ∧ user.is_staff = false
      · have hpost : profile_image_upload_post user username (some f) st = (⟨403, .empty⟩, st) := by
          unfold profile_image_upload_post
          rw [if_pos hp]
        rw [hpost]
        exact ⟨⟨fun _ => hp, fun _ => rfl⟩, fun hor => absurd hor (fun h => perm_contra hp h)⟩
      · have hpost : profile_image_upload_post user username (some f) st =
            (⟨200, .success⟩, generate_profile_images f username st) := by
          unfold profile_image_upload_post
          rw [if_neg hp]
          dsimp only
          rw [hv]
        rw [hpost]
        refine ⟨⟨fun h => by simp at h, fun h => absurd h hp⟩, fun hor => ?_⟩
        refine ⟨⟨fun h => by simp at h, fun h => ?_⟩, ?_, ?_⟩
        · rcases h with h | ⟨f', e', hf, hv'⟩
          · cases h
          · injection hf with hf
            subst hf
            rw [hv] at hv'
            cases hv'
        · intro f' e' hf hv'
          injection hf with hf
          subst hf
          rw [hv] at hv'
          cases hv'
        · intro f' t' hf hv'
          injection hf with hf
          subst hf
          rfl

/-- C6 witness: the owner uploading without a file gets a 400 response. -/
theorem c6_post_status_codes_witness :
    ((⟨"u", false⟩ : RequestUser).username = "u" ∨ (⟨"u", false⟩ : RequestUser).is_staff = true) ∧
    ((profile_image_upload_post ⟨"u", false⟩ "u" none []).1.status = 400 ↔
      ((none : Option UploadedFile) = none ∨ ∃ f e, (none : Option UploadedFile) = some f ∧
        validate_profile_image f f.content_type = .error e)) :=
  ⟨Or.inl rfl, ((c6_post_status_codes ⟨"u", false⟩ "u" none []).2 (Or.inl rfl)).1⟩

end ProfileImages

namespace ProfileImages

theorem matched_type_eval (fn : String) :
    matched_type fn =
      (if endswith fn ".jpeg" || endswith fn ".jpg" then
        some ⟨"jpeg", [".jpeg", ".jpg"], ["image/jpeg", "image/pjpeg"], ["ffd8"]⟩
      else if endswith fn ".png" then
        some ⟨"png", [".png"], ["image/png"], ["89504e470d0a1a0a"]⟩
      else if endswith fn ".gif" then
        some ⟨"gif", [".gif"], ["image/gif"], ["474946383961", "474946383761"]⟩
      else none) := by
  unfold matched_type image_types
  cases h1 : endswith fn ".jpeg" <;> cases h2 : endswith fn ".jpg" <;>
    cases h3 : endswith fn ".png" <;> cases h4 : endswith fn ".gif" <;>
      simp [List.filter_cons, List.filter_nil, List.any_cons, List.any_nil, h1, h2, h3, h4]

theorem not_jpeg_and_png {fn : String}
    (hj : (endswith fn ".jpeg" || endswith fn ".jpg") = true)
    (hp : endswith fn ".png" = true) : False := by
  rcases (Bool.or_eq_true _ _).mp hj with h | h
  · exact endswith_excl h hp (by decide) (by decide)
  · exact endswith_excl h hp (by decide) (by decide)

theorem not_jpeg_and_gif {fn : String}
    (hj : (endswith fn ".jpeg" || endswith fn ".jpg") = true)
    (hg : endswith fn ".gif" = true) : False := by
  rcases (Bool.or_eq_true _ _).mp hj with h | h
  · exact endswith_excl h hg (by decide) (by decide)
  · exact endswith_excl h hg (by decide) (by decide)

theorem not_png_and_gif {fn : String}
    (hp : endswith fn ".png" = true) (hg : endswith fn ".gif" = true) : False :=
  endswith_excl hp hg (by decide) (by decide)

theorem validate_ok_name (f : UploadedFile) (ct : String) (t : String)
    (hv : validate_profile_image f ct = .ok t) :
    t = "jpeg" ∨ t = "png" ∨ t = "gif" := by
  by_cases hmax : PROFILE_IMAGE_MAX_BYTES < f.size
  · rw [validate_too_large f ct hmax] at hv
    cases hv
  · by_cases hmin : f.size < PROFILE_IMAGE_MIN_BYTES
    · rw [validate_too_small f ct hmax hmin] at hv
      cases hv
    · rw [validate_eq_branch f ct hmax hmin, matched_type_eval] at hv
      by_cases h1 : (endswith (str_lower f.name) ".jpeg" || endswith (str_lower f.name) ".jpg") = true
      · rw [if_pos h1] at hv
        dsimp only at hv
        split at hv
        · split at hv
          · injection hv with h
            exact Or.inl h.symm
          · cases hv
        · cases hv
      · rw [if_neg h1] at hv
        by_cases h2 : endswith (str_lower f.name) ".png" = true
        · rw [if_pos h2] at hv
          dsimp only at hv
          split at hv
          · split at hv
            · injection hv with h
              exact Or.inr (Or.inl h.symm)
            · cases hv
          · cases hv
        · rw [if_neg h2] at hv
          by_cases h3 : endswith (str_lower f.name) ".gif" = true
          · rw [if_pos h3] at hv
            dsimp only at hv
            split at hv
            · split at hv
              · injection hv with h
                exact Or.inr (Or.inr h.symm)
              · cases hv
            · cases hv
          · rw [if_neg h3] at hv
            cases hv

end ProfileImages

namespace ProfileImages

/-- C1: validation returns one of the three cleaned extensions exactly
when the upload passes every check of the fixed table: size in range,
lowercased filename with a listed extension, content type among the
mimetypes of the matched type, and leading bytes hex-encoding to one of
its magic strings; in every other case it raises InvalidProfileImage. -/
theorem c1_validate_iff_fixed_table (f : UploadedFile) (ct : String) :
    ((validate_profile_image f ct = .ok "jpeg" ∨ validate_profile_image f ct = .ok "png" ∨
      validate_profile_image f ct = .ok "gif") ↔ passes_fixed_table f ct) ∧
    (¬ passes_fixed_table f ct → ∃ msg, validate_profile_image f ct = .error msg) := by
  have hiff : (validate_profile_image f ct = .ok "jpeg" ∨
      validate_profile_image f ct = .ok "png" ∨
      validate_profile_image f ct = .ok "gif") ↔ passes_fixed_table f ct := by
    by_cases hmax : PROFILE_IMAGE_MAX_BYTES < f.size
    · rw [validate_too_large f ct hmax]
      refine iff_of_false ?_ ?_
      · rintro (h | h | h) <;> exact Except.noConfusion h
      · intro hpass
        unfold passes_fixed_table at hpass
        have hs := hpass.1
        have : (1048576 : Nat) < f.size := hmax
        omega
    · by_cases hmin : f.size < PROFILE_IMAGE_MIN_BYTES
      · rw [validate_too_small f ct hmax hmin]
        refine iff_of_false ?_ ?_
        · rintro (h | h | h) <;> exact Except.noConfusion h
        · intro hpass
          unfold passes_fixed_table at hpass
          have hs := hpass.2.1
          have : f.size < (100 : Nat) := hmin
          omega
      · have hsize1 : f.size ≤ 1048576 := Nat.not_lt.mp hmax
        have hsize2 : (100 : Nat) ≤ f.size := Nat.not_lt.mp hmin
        by_cases hj : (endswith (str_lower f.name) ".jpeg" ||
            endswith (str_lower f.name) ".jpg") = true
        · have hepf := fun (h : endswith (str_lower f.name) ".png" = true) =>
            not_jpeg_and_png hj h
          have hegf := fun (h : endswith (str_lower f.name) ".gif" = true) =>
            not_jpeg_and_gif hj h
          have hmt : matched_type (str_lower f.name) =
              some ⟨"jpeg", [".jpeg", ".jpg"], ["image/jpeg", "image/pjpeg"], ["ffd8"]⟩ := by
            rw [matched_type_eval, if_pos hj]
          have hv := validate_eq_some f ct hmax hmin hmt
          dsimp only at hv
          rw [show ((["ffd8"] : List String).headD "").length / 2 = 2 from rfl] at hv
          rw [hv]
          by_cases hct : ct ∈ (["image/jpeg", "image/pjpeg"] : List String)
          · by_cases hmag : hexEncode (f.content.take 2) ∈ (["ffd8"] : List String)
            · rw [if_pos hct, if_pos hmag]
              refine iff_of_true (Or.inl rfl) ?_
              exact ⟨hsize1, hsize2,
                Or.inl ⟨(Bool.or_eq_true _ _).mp hj, by simpa using hct, by simpa using hmag⟩⟩
            · rw [if_pos hct, if_neg hmag]
              refine iff_of_false ?_ ?_
              · rintro (h | h | h) <;> exact Except.noConfusion h
              · intro hpass
                unfold passes_fixed_table at hpass
                rcases hpass.2.2 with ⟨_, _, hm⟩ | ⟨hp, _, _⟩ | ⟨hg, _, _⟩
                · exact hmag (by simpa using hm)
                · exact hepf hp
                · exact hegf hg
          · rw [if_neg hct]
            refine iff_of_false ?_ ?_
            · rintro (h | h | h) <;> exact Except.noConfusion h
            · intro hpass
              unfold passes_fixed_table at hpass
              rcases hpass.2.2 with ⟨_, hc, _⟩ | ⟨hp, _, _⟩ | ⟨hg, _, _⟩
              · exact hct (by simpa using hc)
              · exact hepf hp
              · exact hegf hg
        · have hjf := fun (h : endswith (str_lower f.name) ".jpeg" = true ∨
              endswith (str_lower f.name) ".jpg" = true) => hj ((Bool.or_eq_true _ _).mpr h)
          by_cases hp : endswith (str_lower f.name) ".png" = true
          · have hgf := fun (h : endswith (str_lower f.name) ".gif" = true) =>
              not_png_and_gif hp h
            have hmt : matched_type (str_lower f.name) =
                some ⟨"png", [".png"], ["image/png"], ["89504e470d0a1a0a"]⟩ := by
              rw [matched_type_eval, if_neg hj, if_pos hp]
            have hv := validate_eq_some f ct hmax hmin hmt
            dsimp only at hv
            rw [show ((["89504e470d0a1a0a"] : List String).headD "").length / 2 = 8 from rfl] at hv
            rw [hv]
            by_cases hct : ct ∈ (["image/png"] : List String)
            · by_cases hmag : hexEncode (f.content.take 8) ∈ (["89504e470d0a1a0a"] : List String)
              · rw [if_pos hct, if_pos hmag]
                refine iff_of_true (Or.inr (Or.inl rfl)) ?_
                exact ⟨hsize1, hsize2,
                  Or.inr (Or.inl ⟨hp, by simpa using hct, by simpa using hmag⟩)⟩
              · rw [if_pos hct, if_neg hmag]
                refine iff_of_false ?_ ?_
                · rintro (h | h | h) <;> exact Except.noConfusion h
                · intro hpass
                  unfold passes_fixed_table at hpass
                  rcases hpass.2.2 with ⟨hc1, _, _⟩ | ⟨_, _, hm⟩ | ⟨hg, _, _⟩
                  · exact hjf hc1
                  · exact hmag (by simpa using hm)
                  · exact hgf hg
            · rw [if_neg hct]
              refine iff_of_false ?_ ?_
              · rintro (h | h | h) <;> exact Except.noConfusion h
              · intro hpass
                unfold passes_fixed_table at hpass
                rcases hpass.2.2 with ⟨hc1, _, _⟩ | ⟨_, hc, _⟩ | ⟨hg, _, _⟩
                · exact hjf hc1
                · exact hct (by simpa using hc)
                · exact hgf hg
          · by_cases hg : endswith (str_lower f.name) ".gif" = true
            · have hmt : matched_type (str_lower f.name) =
                  some ⟨"gif", [".gif"], ["image/gif"], ["474946383961", "474946383761"]⟩ := by
                rw [matched_type_eval, if_neg hj, if_neg hp, if_pos hg]
              have hv := validate_eq_some f ct hmax hmin hmt
              dsimp only at hv
              rw [show ((["474946383961", "474946383761"] : List String).headD "").length / 2 = 6
                from rfl] at hv
              rw [hv]
              by_cases hct : ct ∈ (["image/gif"] : List String)
              · by_cases hmag : hexEncode (f.content.take 6) ∈
                    (["474946383961", "474946383761"] : List String)
                · rw [if_pos hct, if_pos hmag]
                  refine iff_of_true (Or.inr (Or.inr rfl)) ?_
                  exact ⟨hsize1, hsize2,
                    Or.inr (Or.inr ⟨hg, by simpa using hct, by simpa using hmag⟩)⟩
                · rw [if_pos hct, if_neg hmag]
                  refine iff_of_false ?_ ?_
                  · rintro (h | h | h) <;> exact Except.noConfusion h
                  · intro hpass
                    unfold passes_fixed_table at hpass
                    rcases hpass.2.2 with ⟨hc1, _, _⟩ | ⟨hpp, _, _⟩ | ⟨_, _, hm⟩
                    · exact hjf hc1
                    · exact hp hpp
                    · exact hmag (by simpa using hm)
              · rw [if_neg hct]
                refine iff_of_false ?_ ?_
                · rintro (h | h | h) <;> exact Except.noConfusion h
                · intro hpass
                  unfold passes_fixed_table at hpass
                  rcases hpass.2.2 with ⟨hc1, _, _⟩ | ⟨hpp, _, _⟩ | ⟨_, hc, _⟩
                  · exact hjf hc1
                  · exact hp hpp
                  · exact hct (by simpa using hc)
            · have hmt : matched_type (str_lower f.name) = none := by
                rw [matched_type_eval, if_neg hj, if_neg hp, if_neg hg]
              rw [validate_eq_none f ct hmax hmin hmt]
              refine iff_of_false ?_ ?_
              · rintro (h | h | h) <;> exact Except.noConfusion h
              · intro hpass
                unfold passes_fixed_table at hpass
                rcases hpass.2.2 with ⟨hc1, _, _⟩ | ⟨hpp, _, _⟩ | ⟨hgg, _, _⟩
                · exact hjf hc1
                · exact hp hpp
                · exact hg hgg
  refine ⟨hiff, fun hnp => ?_⟩
  cases hv : validate_profile_image f ct with
  | error msg => exact ⟨msg, rfl⟩
  | ok t =>
    exfalso
    apply hnp
    apply hiff.mp
    rcases validate_ok_name f ct t hv with h | h | h
    · exact Or.inl (h ▸ hv)
    · exact Or.inr (Or.inl (h ▸ hv))
    · exact Or.inr (Or.inr (h ▸ hv))

/-- C1 witness: a well-formed JPEG upload passes the fixed table and is
validated with the cleaned extension jpeg. -/
theorem c1_validate_iff_fixed_table_witness :
    passes_fixed_table ⟨"pic.JPG", 500, [255, 216, 255, 224], "image/jpeg", 4, 4⟩ "image/jpeg" ∧
    (validate_profile_image ⟨"pic.JPG", 500, [255, 216, 255, 224], "image/jpeg", 4, 4⟩
        "image/jpeg" = .ok "jpeg" ∨
      validate_profile_image ⟨"pic.JPG", 500, [255, 216, 255, 224], "image/jpeg", 4, 4⟩
        "image/jpeg" = .ok "png" ∨
      validate_profile_image ⟨"pic.JPG", 500, [255, 216, 255, 224], "image/jpeg", 4, 4⟩
        "image/jpeg" = .ok "gif") :=
  ⟨by unfold passes_fixed_table; decide,
    (c1_validate_iff_fixed_table ⟨"pic.JPG", 500, [255, 216, 255, 224], "image/jpeg", 4, 4⟩
      "image/jpeg").1.mpr (by unfold passes_fixed_table; decide)⟩

end ProfileImages

namespace ProfileImages

theorem name_profile_image_ne (u : String) (s t : Nat)
    (h : toString s ≠ toString t) : name_profile_image u s ≠ name_profile_image u t := by
  intro he
  refine h (String.ext ?_)
  have h2 := congrArg String.data he
  simp only [name_profile_image, String.data_append] at h2
  exact List.append_cancel_right (List.append_cancel_left (List.append_cancel_left h2))

theorem store_filter_self (img : Image) (side : Nat) (u : String) (st : Storage) :
    (store_profile_image img side u st).2.filter
      (fun e => e.1 == name_profile_image u side) = [(name_profile_image u side, img)] := by
  unfold store_profile_image storage_save storage_exists storage_delete
  dsimp only
  by_cases hex : st.any (fun e => e.1 == name_profile_image u side) = true
  · rw [if_pos hex]
    simp only [List.filter_cons, beq_self_eq_true, if_pos rfl]
    rw [List.filter_filter]
    simp [Bool.and_not_self]
  · rw [if_neg hex]
    simp only [List.filter_cons, beq_self_eq_true, if_pos rfl]
    have hnone : st.filter (fun e => e.1 == name_profile_image u side) = [] := by
      rw [List.filter_eq_nil_iff]
      exact List.any_eq_false.mp (Bool.eq_false_iff.mpr hex ▸ rfl)
    rw [hnone]
    simp

theorem store_filter_other (img : Image) (side : Nat) (u : String) (st : Storage)
    (n : String) (hne : n ≠ name_profile_image u side) :
    (store_profile_image img side u st).2.filter (fun e => e.1 == n) =
      st.filter (fun e => e.1 == n) := by
  unfold store_profile_image storage_save storage_exists storage_delete
  dsimp only
  have hd : ((name_profile_image u side, img).1 == n) = false :=
    beq_eq_false_iff_ne.mpr (fun h => hne (by simpa using h.symm))
  by_cases hex : st.any (fun e => e.1 == name_profile_image u side) = true
  · rw [if_pos hex]
    simp only [List.filter_cons, hd, Bool.false_eq_true, if_neg (by simp : ¬ False)]
    rw [List.filter_filter]
    apply List.filter_congr
    intro a _
    cases ha : (a.1 == n)
    · simp
    · have h1 : a.1 = n := eq_of_beq ha
      have h2 : (a.1 == name_profile_image u side) = false := by
        rw [h1]
        exact beq_eq_false_iff_ne.mpr hne
      simp [h2]
  · rw [if_neg hex]
    simp only [List.filter_cons, hd, Bool.false_eq_true, if_neg (by simp : ¬ False)]

/-- C9: the stored name is the md5 hex digest of the username followed by
the profile tag, side and jpeg extension; store_profile_image deletes any
existing file of that name before saving, so the storage keeps exactly one
entry under that name, holding the new image, and entries under every
other name are untouched; hence a repeat upload replaces the previous
image. -/
theorem c9_store_name_and_replacement (img : Image) (side : Nat) (username : String)
    (st : Storage) :
    (store_profile_image img side username st).1 = name_profile_image username side ∧
    name_profile_image username side =
      md5hex username ++ ("_profile_" ++ (toString side ++ ".jpeg")) ∧
    (store_profile_image img side username st).2.filter
      (fun e => e.1 == name_profile_image username side) =
        [(name_profile_image username side, img)] ∧
    (∀ n, n ≠ name_profile_image username side →
      (store_profile_image img side username st).2.filter (fun e => e.1 == n) =
        st.filter (fun e => e.1 == n)) :=
  ⟨rfl, rfl, store_filter_self img side username st,
    fun n hn => store_filter_other img side username st n hn⟩

/-- C9 witness: storing over an existing thumbnail for user and side
leaves exactly the new image under that name and keeps a foreign entry. -/
theorem c9_store_name_and_replacement_witness :
    ("x" : String) ≠ name_profile_image "user" 30 ∧
    (store_profile_image ⟨30, 30⟩ 30 "user"
        [(name_profile_image "user" 30, ⟨1, 1⟩), ("x", ⟨2, 2⟩)]).2.filter
      (fun e => e.1 == name_profile_image "user" 30) =
        [(name_profile_image "user" 30, ⟨30, 30⟩)] ∧
    (store_profile_image ⟨30, 30⟩ 30 "user"
        [(name_profile_image "user" 30, ⟨1, 1⟩), ("x", ⟨2, 2⟩)]).2.filter
      (fun e => e.1 == "x") =
        [(name_profile_image "user" 30, ⟨1, 1⟩), ("x", ⟨2, 2⟩)].filter
          (fun e => e.1 == "x") := by
  have hne : ("x" : String) ≠ name_profile_image "user" 30 := by
    set_option maxRecDepth 20000 in decide
  exact ⟨hne,
    (c9_store_name_and_replacement ⟨30, 30⟩ 30 "user"
      [(name_profile_image "user" 30, ⟨1, 1⟩), ("x", ⟨2, 2⟩)]).2.2.1,
    (c9_store_name_and_replacement ⟨30, 30⟩ 30 "user"
      [(name_profile_image "user" 30, ⟨1, 1⟩), ("x", ⟨2, 2⟩)]).2.2.2 "x" hne⟩

end ProfileImages

namespace ProfileImages

theorem storage_exists_cons_ne (n m : String) (img : Image) (st : Storage)
    (hne : n ≠ m) (h : storage_exists st m = false) :
    storage_exists ((n, img) :: st) m = false := by
  unfold storage_exists at h ⊢
  rw [List.any_cons, h]
  simp [beq_eq_false_iff_ne.mpr hne]

theorem store_fresh (img : Image) (side : Nat) (u : String) (st : Storage)
    (h : storage_exists st (name_profile_image u side) = false) :
    (store_profile_image img side u st).2 = (name_profile_image u side, img) :: st := by
  unfold store_profile_image storage_save
  dsimp only
  rw [h]
  simp

/-- C2: generate_profile_images stores exactly four thumbnails, one at
each of the fixed sides 30, 50, 120 and 500, each a square of dimensions
side by side: after generation each of the four names holds exactly the
square thumbnail of its side, and on a storage holding no thumbnail yet
for the user the result is precisely the four new entries on top of the
old storage. -/
theorem c2_generate_four_thumbnails (f : UploadedFile) (username : String) (st : Storage) :
    (∀ side ∈ profile_image_sides,
      (generate_profile_images f username st).filter
        (fun e => e.1 == name_profile_image username side) =
        [(name_profile_image username side, (⟨side, side⟩ : Image))]) ∧
    ((∀ side ∈ profile_image_sides,
        storage_exists st (name_profile_image username side) = false) →
      generate_profile_images f username st =
        (name_profile_image username 500, ⟨500, 500⟩) ::
          (name_profile_image username 120, ⟨120, 120⟩) ::
            (name_profile_image username 50, ⟨50, 50⟩) ::
              (name_profile_image username 30, ⟨30, 30⟩) :: st) := by
  constructor
  · intro side hside
    unfold generate_profile_images profile_image_sides
    rw [List.foldl_cons, List.foldl_cons, List.foldl_cons, List.foldl_cons, List.foldl_nil]
    dsimp only [get_scaled_image_file, Image.resize]
    have hmem : side = 30 ∨ side = 50 ∨ side = 120 ∨ side = 500 := by
      simpa [profile_image_sides] using hside
    rcases hmem with h | h | h | h <;> subst h
    · rw [store_filter_other _ _ _ _ _ (name_profile_image_ne username 30 500 (by decide)),
        store_filter_other _ _ _ _ _ (name_profile_image_ne username 30 120 (by decide)),
        store_filter_other _ _ _ _ _ (name_profile_image_ne username 30 50 (by decide)),
        store_filter_self]
    · rw [store_filter_other _ _ _ _ _ (name_profile_image_ne username 50 500 (by decide)),
        store_filter_other _ _ _ _ _ (name_profile_image_ne username 50 120 (by decide)),
        store_filter_self]
    · rw [store_filter_other _ _ _ _ _ (name_profile_image_ne username 120 500 (by decide)),
        store_filter_self]
    · rw [store_filter_self]
  · intro hfresh
    have h30 := hfresh 30 (by simp [profile_image_sides])
    have h50 := hfresh 50 (by simp [profile_image_sides])
    have h120 := hfresh 120 (by simp [profile_image_sides])
    have h500 := hfresh 500 (by simp [profile_image_sides])
    have e50 : storage_exists ((name_profile_image username 30, (⟨30, 30⟩ : Image)) :: st)
        (name_profile_image username 50) = false :=
      storage_exists_cons_ne _ _ _ _ (name_profile_image_ne username 30 50 (by decide)) h50
    have e120 : storage_exists ((name_profile_image username 50, (⟨50, 50⟩ : Image)) ::
        (name_profile_image username 30, (⟨30, 30⟩ : Image)) :: st)
        (name_profile_image username 120) = false :=
      storage_exists_cons_ne _ _ _ _ (name_profile_image_ne username 50 120 (by decide))
        (storage_exists_cons_ne _ _ _ _ (name_profile_image_ne username 30 120 (by decide)) h120)
    have e500 : storage_exists ((name_profile_image username 120, (⟨120, 120⟩ : Image)) ::
        (name_profile_image username 50, (⟨50, 50⟩ : Image)) ::
        (name_profile_image username 30, (⟨30, 30⟩ : Image)) :: st)
        (name_profile_image username 500) = false :=
      storage_exists_cons_ne _ _ _ _ (name_profile_image_ne username 120 500 (by decide))
        (storage_exists_cons_ne _ _ _ _ (name_profile_image_ne username 50 500 (by decide))
          (storage_exists_cons_ne _ _ _ _ (name_profile_image_ne username 30 500 (by decide)) h500))
    unfold generate_profile_images profile_image_sides
    rw [List.foldl_cons, List.foldl_cons, List.foldl_cons, List.foldl_cons, List.foldl_nil]
    dsimp only [get_scaled_image_file, Image.resize]
    rw [store_fresh _ _ _ _ h30, store_fresh _ _ _ _ e50, store_fresh _ _ _ _ e120,
      store_fresh _ _ _ _ e500]

/-- C2 witness: on empty storage the four fresh thumbnails are stored. -/
theorem c2_generate_four_thumbnails_witness :
    (30 ∈ profile_image_sides ∧
      (generate_profile_images ⟨"a.jpg", 500, [255, 216], "image/jpeg", 8, 6⟩ "u" []).filter
        (fun e => e.1 == name_profile_image "u" 30) =
        [(name_profile_image "u" 30, (⟨30, 30⟩ : Image))]) ∧
    ((∀ side ∈ profile_image_sides,
        storage_exists [] (name_profile_image "u" side) = false) ∧
      generate_profile_images ⟨"a.jpg", 500, [255, 216], "image/jpeg", 8, 6⟩ "u" [] =
        [(name_profile_image "u" 500, ⟨500, 500⟩), (name_profile_image "u" 120, ⟨120, 120⟩),
         (name_profile_image "u" 50, ⟨50, 50⟩), (name_profile_image "u" 30, ⟨30, 30⟩)]) :=
  ⟨⟨by simp [profile_image_sides],
    (c2_generate_four_thumbnails ⟨"a.jpg", 500, [255, 216], "image/jpeg", 8, 6⟩ "u" []).1 30
      (by simp [profile_image_sides])⟩,
   fun _ _ => rfl,
    (c2_generate_four_thumbnails ⟨"a.jpg", 500, [255, 216], "image/jpeg", 8, 6⟩ "u" []).2
      (fun _ _ => rfl)⟩

end ProfileImages
